import Mathlib

set_option autoImplicit false

namespace Almanaque

/-!
Shallow embedding of the notification scheduling and preference-matching
subsystem of the AlmanaqueLuso server (`server/notificationScheduler.ts`,
`server/services/pushNotificationService.ts`, the push-subscription routes
in `server/routes.ts`, and the relevant tables of `shared/schema.ts`).

Times of day are minutes since midnight.  Parsed time values are
`Option Nat`, where `none` models the JavaScript `NaN` produced when an
`HH:MM` string fails to parse: in JavaScript every `<`, `<=`, `>`, `>=`
comparison involving `NaN` is `false`, and `NaN + k = NaN`.
-/

/-- JavaScript `a < b` on possibly-NaN numbers (`false` when either is NaN). -/
def jsLt : Option Nat → Option Nat → Bool
  | some a, some b => decide (a < b)
  | _, _ => false

/-- JavaScript `a <= b` on possibly-NaN numbers (`false` when either is NaN). -/
def jsLe : Option Nat → Option Nat → Bool
  | some a, some b => decide (a ≤ b)
  | _, _ => false

/-- JavaScript `a > b` on possibly-NaN numbers (`false` when either is NaN). -/
def jsGt : Option Nat → Option Nat → Bool
  | some a, some b => decide (b < a)
  | _, _ => false

/-- JavaScript `a >= b` on possibly-NaN numbers (`false` when either is NaN). -/
def jsGe : Option Nat → Option Nat → Bool
  | some a, some b => decide (b ≤ a)
  | _, _ => false

/-- JavaScript `x + k` where `x` may be NaN (`NaN + k = NaN`). -/
def jsAdd (a : Option Nat) (k : Nat) : Option Nat := a.map (· + k)

/-- JavaScript `s || d` for a nullable string field: `null` and `""` are
falsy, so they select the fallback `d`. -/
def jsOrStr : Option String → String → String
  | some s, d => if s = "" then d else s
  | none, d => d

/-- `String.prototype.split(':')`, by structural recursion over the
character list so the kernel can evaluate it on literals. -/
def splitColon : List Char → List (List Char)
  | [] => [[]]
  | c :: cs =>
    if c = ':' then [] :: splitColon cs
    else
      match splitColon cs with
      | [] => [[c]]
      | g :: gs => (c :: g) :: gs

/-- JavaScript `Number(s)` restricted to the component strings an `HH:MM`
split produces: a string of decimal digits parses to its value, the empty
string parses to `0`, anything else is NaN (`none`). -/
def jsNumber (cs : List Char) : Option Nat :=
  if cs.all Char.isDigit then
    some (cs.foldl (fun a c => a * 10 + (c.toNat - 48)) 0)
  else none

/-- `s.split(':').map(Number)` destructured to `[h, m]` and combined as
`h * 60 + m`, as both `isQuietHours` and `sendDailyDigest` do: `none` (NaN)
when the string does not have two leading numeric components. -/
def parseTimeJS (s : String) : Option Nat :=
  match splitColon s.data with
  | h :: m :: _ =>
    match jsNumber h, jsNumber m with
    | some hh, some mm => some (hh * 60 + mm)
    | _, _ => none
  | _ => none

/-- `isQuietHours` from `notificationScheduler.ts` lines 16–33, with the
current time (the code's `currentHour * 60 + currentMinute`, always an
actual number) passed in as minutes since midnight. -/
def isQuietHours (quietStart quietEnd : String) (currentTime : Nat) : Bool :=
  let startTime := parseTimeJS quietStart
  let endTime := parseTimeJS quietEnd
  if jsGt startTime endTime then
    jsGe (some currentTime) startTime || jsLe (some currentTime) endTime
  else
    jsGe (some currentTime) startTime && jsLe (some currentTime) endTime

/-- C3: for quiet-hours bounds that parse to `s` and `e` minutes, the
scheduler's quiet-hours predicate is true iff `s ≤ now ≤ e` when `s ≤ e`,
and iff `now ≥ s ∨ now ≤ e` when `s > e` (window wrapping past midnight). -/
theorem quietHours_characterisation (qs qe : String) (now s e : Nat)
    (hs : parseTimeJS qs = some s) (he : parseTimeJS qe = some e) :
    (isQuietHours qs qe now = true ↔
      if s ≤ e then s ≤ now ∧ now ≤ e else (now ≥ s ∨ now ≤ e)) := by
  simp only [isQuietHours, hs, he, jsGt, jsGe, jsLe]
  rcases Nat.lt_or_ge e s with h | h
  · have h' : ¬ s ≤ e := Nat.not_le_of_lt h
    simp [h, h']
  · have h' : ¬ e < s := Nat.not_lt_of_le h
    simp [h, h']

/-- Witness for C3 at quietStart = "22:00", quietEnd = "08:00", now = 23:00. -/
theorem quietHours_characterisation_witness :
    (isQuietHours "22:00" "08:00" 1380 = true ↔
      if 1320 ≤ 480 then 1320 ≤ 1380 ∧ 1380 ≤ 480 else (1380 ≥ 1320 ∨ 1380 ≤ 480)) :=
  quietHours_characterisation "22:00" "08:00" 1380 1320 480 rfl rfl

/-- C4 counterexample: with quietHoursStart = quietHoursEnd = "10:00" the
predicate returns `true` at 10:00 (600 minutes), so it is not false for
every current time. -/
theorem quietHours_start_eq_end_cx : isQuietHours "10:00" "10:00" 600 = true := rfl

/-- C4 amended: when the two quiet-hours bounds are the same string,
parsing to minute `t`, the predicate is true exactly at `now = t` — a
one-minute quiet window, not "never quiet". -/
theorem quietHours_start_eq_end (q : String) (now t : Nat)
    (h : parseTimeJS q = some t) :
    (isQuietHours q q now = true ↔ now = t) := by
  simp only [isQuietHours, h, jsGt, jsGe, jsLe]
  simp
  omega

/-- Witness for C4 amended at "10:00", now = 600. -/
theorem quietHours_start_eq_end_witness :
    (isQuietHours "10:00" "10:00" 600 = true ↔ 600 = 600) :=
  quietHours_start_eq_end "10:00" 600 600 rfl

/-! ## Data model (`shared/schema.ts`) -/

/-- One `notification_preferences` row.  The enabled flags and the
frequency/time strings are nullable in the schema, hence `Option`;
JavaScript truthiness and `||` fallbacks are applied where the code does. -/
structure Prefs where
  userId : Nat
  tidesEnabled : Option Bool
  sportsEnabled : Option Bool
  astronomyEnabled : Option Bool
  agricultureEnabled : Option Bool
  culturalEnabled : Option Bool
  holidaysEnabled : Option Bool
  tidesFrequency : Option String
  sportsFrequency : Option String
  astronomyFrequency : Option String
  agricultureFrequency : Option String
  culturalFrequency : Option String
  holidaysFrequency : Option String
  preferredNotificationTime : Option String
  quietHoursStart : Option String
  quietHoursEnd : Option String
  deriving DecidableEq, Repr

/-- JavaScript truthiness of a nullable boolean column. -/
def truthy : Option Bool → Bool
  | some b => b
  | none => false

/-- One `events` row as the scheduler reads it.  `startAt` is minutes since
an arbitrary epoch. -/
structure Event where
  id : Nat
  title : String
  type : String
  startAt : Nat
  location : String
  deriving DecidableEq, Repr

/-- Notification payload as built by the scheduler. -/
structure Payload where
  title : String
  body : String
  url : String
  tag : String
  deriving DecidableEq, Repr

/-- Per-tick per-user working set (`NotificationContext`): the preferences
row plus the user's push-subscription ids. -/
structure Context where
  prefs : Prefs
  subs : List Nat
  deriving DecidableEq, Repr

/-! ## Event-type resolution and the event-store query
(`getRelevantEvents`, lines 73–117) -/

/-- The `eventTypes` list built by `getRelevantEvents` lines 79–99: one
block per category, pushed when the enabled flag is truthy and the
frequency is not `'never'` (JavaScript `!==`, so a NULL frequency counts
as not-never). -/
def eventTypesFor (p : Prefs) : List String :=
  (if truthy p.tidesEnabled && p.tidesFrequency != some "never" then ["tide"] else []) ++
  (if truthy p.sportsEnabled && p.sportsFrequency != some "never" then
    ["match_liga", "uefa", "fifa"] else []) ++
  (if truthy p.astronomyEnabled && p.astronomyFrequency != some "never" then
    ["astronomy", "moon"] else []) ++
  (if truthy p.agricultureEnabled && p.agricultureFrequency != some "never" then
    ["agriculture"] else []) ++
  (if truthy p.culturalEnabled && p.culturalFrequency != some "never" then
    ["event_pt", "cultural"] else []) ++
  (if truthy p.holidaysEnabled && p.holidaysFrequency != some "never" then ["holiday"] else [])

/-- Semantics of the drizzle query
`select from events where type = ANY(types) and startAt >= lo and startAt <= hi limit lim`
over a list-modelled event store: filter, then take the row limit. -/
def dbQuery (store : List Event) (types : List String) (lo hi lim : Nat) : List Event :=
  (store.filter fun e => types.contains e.type && decide (lo ≤ e.startAt) &&
    decide (e.startAt ≤ hi)).take lim

/-- `getRelevantEvents` lines 73–117 with the event-store query abstracted
as a fallible call `query types lo hi lim` (so that "returns empty without
querying" is observable): when `eventTypes` is empty it returns `[]`
without touching the store; otherwise it queries `[now, now + 1440]`
(`tomorrow = now + 1 day`) with limit 10. -/
def getRelevantEventsE (query : List String → Nat → Nat → Nat → Except Unit (List Event))
    (now : Nat) (p : Prefs) : Except Unit (List Event) :=
  let eventTypes := eventTypesFor p
  if eventTypes.isEmpty then .ok []
  else query eventTypes now (now + 1440) 10

/-- The query backed by a concrete list-modelled store, never failing. -/
def storeQuery (store : List Event) : List String → Nat → Nat → Nat → Except Unit (List Event) :=
  fun types lo hi lim => .ok (dbQuery store types lo hi lim)

/-! ## Candidate resolution (`getUsersForNotifications`, lines 38–68) -/

/-- `getUsersForNotifications` lines 38–68 over a list of preference rows,
with the per-user subscription fetch abstracted as a fallible call.  A row
in quiet hours (with `'22:00'`/`'08:00'` fallbacks) is skipped; a failing
subscription fetch is NOT caught here, so it aborts the whole resolution
(`.error`); rows with no subscriptions are skipped. -/
def getUsersForNotifications (subsOf : Nat → Except Unit (List Nat)) (now : Nat) :
    List Prefs → Except Unit (List Context)
  | [] => .ok []
  | p :: rest =>
    if isQuietHours (jsOrStr p.quietHoursStart "22:00") (jsOrStr p.quietHoursEnd "08:00") now then
      getUsersForNotifications subsOf now rest
    else
      match subsOf p.userId with
      | .error e => .error e
      | .ok subs =>
        if subs.length > 0 then
          match getUsersForNotifications subsOf now rest with
          | .error e => .error e
          | .ok cs => .ok (⟨p, subs⟩ :: cs)
        else getUsersForNotifications subsOf now rest

/-! ## Daily digest (`sendDailyDigest`, lines 122–177) -/

/-- The send-window check of `sendDailyDigest` lines 135–145 on the parsed
preferred time (possibly NaN): the user is NOT skipped iff
`¬(now < preferred ∨ now ≥ preferred + 15)` under JavaScript NaN
comparison semantics. -/
def digestWindowPassesM (preferred : Option Nat) (now : Nat) : Bool :=
  !(jsLt (some now) preferred || jsGe (some now) (jsAdd preferred 15))

/-- The send-window check applied to a preferences row: parse
`preferredNotificationTime` with the `'09:00'` fallback (line 135). -/
def digestWindowPasses (p : Prefs) (now : Nat) : Bool :=
  digestWindowPassesM (parseTimeJS (jsOrStr p.preferredNotificationTime "09:00")) now

/-- The digest payload composed at lines 150–162. -/
def digestPayload (evs : List Event) : Payload :=
  { title := "AlmanaqueLuso - " ++ toString evs.length ++ " eventos hoje"
    body := String.intercalate ", " ((evs.take 3).map Event.title)
    url := "/dashboard"
    tag := "daily-digest" }

/-- Environment of one scheduler tick: the preference table, the fallible
per-user subscription fetch, the fallible event-store query, the fallible
push delivery, and the current time of day in minutes. -/
structure TickEnv where
  prefs : List Prefs
  subsOf : Nat → Except Unit (List Nat)
  query : List String → Nat → Nat → Nat → Except Unit (List Event)
  deliver : Nat → Payload → Except Unit Unit
  now : Nat

/-- One `PushNotificationService.sendToUser` invocation recorded by the
tick: the target user, the composed payload, and whether delivery
succeeded (the code catches a delivery failure, logs it and continues). -/
structure Attempt where
  userId : Nat
  payload : Payload
  delivered : Bool
  deriving DecidableEq, Repr

/-- The per-context loop of `sendDailyDigest` lines 130–168.  A context
outside its send window is skipped; a failing event fetch is NOT caught
inside the loop, so it aborts the remaining contexts (the tick-level
`catch` at line 171 only logs it); a delivery failure is caught at lines
156–166 and the loop continues. -/
def digestLoop (env : TickEnv) : List Context → List Attempt
  | [] => []
  | c :: rest =>
    if digestWindowPasses c.prefs env.now then
      match getRelevantEventsE env.query env.now c.prefs with
      | .error _ => []
      | .ok evs =>
        if evs.length > 0 then
          let pay := digestPayload evs
          let ok := match env.deliver c.prefs.userId pay with
            | .ok _ => true
            | .error _ => false
          ⟨c.prefs.userId, pay, ok⟩ :: digestLoop env rest
        else digestLoop env rest
    else digestLoop env rest

/-- `sendDailyDigest` lines 122–177: resolve candidates, then run the
digest loop; a failure of candidate resolution is caught by the tick-level
`catch` (nothing is sent, the tick does not crash). -/
def sendDailyDigest (env : TickEnv) : List Attempt :=
  match getUsersForNotifications env.subsOf env.now env.prefs with
  | .error _ => []
  | .ok cs => digestLoop env cs

/-! ## Immediate tide alerts (`sendImmediateNotifications`, lines 182–229) -/

/-- The payload of one immediate tide alert (lines 214–219). -/
def tidePayload (t : Event) : Payload :=
  { title := "AlmanaqueLuso - Maré Próxima"
    body := t.title ++ " - " ++ t.location
    url := "/dashboard"
    tag := "tide-" ++ toString t.id }

/-- The per-context loop of `sendImmediateNotifications` lines 186–225:
skip unless tides are enabled with `'immediate'` frequency; query tide
events in `[now, now + 60]` with limit 5 (a failing query is only caught
by the function-level `catch`, aborting remaining contexts); send one
notification per tide, each delivery failure caught and logged. -/
def immediateLoop (env : TickEnv) : List Context → List Attempt
  | [] => []
  | c :: rest =>
    if !(truthy c.prefs.tidesEnabled) || c.prefs.tidesFrequency != some "immediate" then
      immediateLoop env rest
    else
      match env.query ["tide"] env.now (env.now + 60) 5 with
      | .error _ => []
      | .ok tides =>
        if tides.length > 0 then
          (tides.map fun t =>
            let pay := tidePayload t
            let ok := match env.deliver c.prefs.userId pay with
              | .ok _ => true
              | .error _ => false
            Attempt.mk c.prefs.userId pay ok) ++ immediateLoop env rest
        else immediateLoop env rest

/-- `sendImmediateNotifications` lines 182–229. -/
def sendImmediateNotifications (env : TickEnv) : List Attempt :=
  match getUsersForNotifications env.subsOf env.now env.prefs with
  | .error _ => []
  | .ok cs => immediateLoop env cs

/-! ## Push delivery channel (`pushNotificationService.ts`, `sendToUser`
lines 44–90) -/

/-- One `push_subscriptions` row as `sendToUser` uses it. -/
structure PushSub where
  id : Nat
  endpoint : String
  deriving DecidableEq, Repr

/-- Result of one `webpush.sendNotification` call: success, or a thrown
error carrying `statusCode`. -/
inductive PushOutcome where
  | ok : PushOutcome
  | err (statusCode : Nat) : PushOutcome
  deriving DecidableEq, Repr

/-- What one `sendToUser` call did: endpoints delivered to, subscription
rows deleted (on status 410/404), and per-device errors merely logged. -/
structure SendResult where
  deliveredEndpoints : List String
  deletedIds : List Nat
  loggedErrorIds : List Nat
  deriving DecidableEq, Repr

/-- The per-device fan-out of `sendToUser` lines 58–85: each device is
attempted; a thrown error with status 410 or 404 deletes exactly that
subscription row; any other error is logged and the row kept; nothing
propagates (`Promise.allSettled`). -/
def sendToUserLoop (push : PushSub → PushOutcome) : List PushSub → SendResult
  | [] => ⟨[], [], []⟩
  | s :: rest =>
    let r := sendToUserLoop push rest
    match push s with
    | .ok => ⟨s.endpoint :: r.deliveredEndpoints, r.deletedIds, r.loggedErrorIds⟩
    | .err code =>
      if code == 410 || code == 404 then
        ⟨r.deliveredEndpoints, s.id :: r.deletedIds, r.loggedErrorIds⟩
      else
        ⟨r.deliveredEndpoints, r.deletedIds, s.id :: r.loggedErrorIds⟩

/-- `sendToUser` lines 44–90: fetch the user's subscriptions (a failure
there is rethrown by the outer `catch`, line 88), then fan out per device;
per-device errors never escape. -/
def sendToUser (subsFetch : Except Unit (List PushSub)) (push : PushSub → PushOutcome) :
    Except Unit SendResult :=
  match subsFetch with
  | .error e => .error e
  | .ok subs => .ok (sendToUserLoop push subs)

/-- A successful push delivery. -/
def deliveredOutcome : PushOutcome → Bool
  | .ok => true
  | .err _ => false

/-- A push outcome that deletes the registration: a thrown error with
status 410 or 404. -/
def permanentFailure : PushOutcome → Bool
  | .ok => false
  | .err code => code == 410 || code == 404

/-- A push outcome that is logged and leaves the registration intact. -/
def transientFailure : PushOutcome → Bool
  | .ok => false
  | .err code => !(code == 410 || code == 404)

/-! ## Push-subscription subscribe route (`routes.ts`,
`POST /api/push/subscribe` lines 1093–1127) -/

/-- One full `push_subscriptions` row. -/
structure SubRow where
  id : Nat
  userId : Nat
  endpoint : String
  keysP256dh : String
  keysAuth : String
  userAgent : Option String
  createdAt : Nat
  deriving DecidableEq, Repr

/-- A validated subscribe request: `insertPushSubscriptionSchema.parse`
of `{...req.body, userId}`, so `userId` is always the authenticated user. -/
structure SubReq where
  userId : Nat
  endpoint : String
  keysP256dh : String
  keysAuth : String
  userAgent : Option String
  deriving DecidableEq, Repr

/-- The `update ... set {keys, userAgent} where endpoint = req.endpoint`
statement applied to one row. -/
def refreshRow (req : SubReq) (r : SubRow) : SubRow :=
  if r.endpoint == req.endpoint then
    { r with keysP256dh := req.keysP256dh, keysAuth := req.keysAuth, userAgent := req.userAgent }
  else r

/-- `POST /api/push/subscribe` lines 1093–1127 over a list-modelled
subscription table: select existing rows by endpoint with `limit 1`; if
one exists, update its keys and userAgent in place; otherwise insert a new
row (the database assigns `freshId` and `freshCreatedAt`). -/
def subscribeRoute (store : List SubRow) (req : SubReq) (freshId freshCreatedAt : Nat) :
    List SubRow :=
  let existing := (store.filter fun r => r.endpoint == req.endpoint).take 1
  if existing.length > 0 then
    store.map (refreshRow req)
  else
    store ++ [⟨freshId, req.userId, req.endpoint, req.keysP256dh, req.keysAuth,
      req.userAgent, freshCreatedAt⟩]

/-! ## Theorems -/

/-- C1: the digest send-window check used by `sendDailyDigest` passes, for
a preferred time parsing to `pt` minutes and current time `now` minutes,
iff `0 ≤ now - pt < 15`; in particular it fails for every negative delta
and every delta of 15 minutes or more. -/
theorem sendWindow_characterisation (pt now : Nat) :
    (digestWindowPassesM (some pt) now = true ↔
      0 ≤ (now : ℤ) - pt ∧ (now : ℤ) - pt < 15) := by
  by_cases h1 : now < pt <;> by_cases h2 : pt + 15 ≤ now <;>
    simp [digestWindowPassesM, jsLt, jsGe, jsAdd, h1, h2] <;> omega

/-- C8: `sendToUser` attempts delivery to each registration independently:
the delivered endpoints are exactly those whose push succeeded, the
deleted rows are exactly those whose push failed with status 410 or 404
(each one exactly that registration's id), every other failure is only
logged with the registration kept, and no per-device error escapes to the
caller (the result is `.ok` whenever the subscription fetch succeeded). -/
theorem sendToUser_per_device (subs : List PushSub) (push : PushSub → PushOutcome) :
    sendToUser (.ok subs) push = .ok (sendToUserLoop push subs) ∧
    sendToUserLoop push subs =
      ⟨(subs.filter fun s => deliveredOutcome (push s)).map PushSub.endpoint,
       (subs.filter fun s => permanentFailure (push s)).map PushSub.id,
       (subs.filter fun s => transientFailure (push s)).map PushSub.id⟩ := by
  refine ⟨rfl, ?_⟩
  induction subs with
  | nil => rfl
  | cons s rest ih =>
    simp only [sendToUserLoop, ih, List.filter_cons]
    cases h : push s with
    | ok => simp [deliveredOutcome, permanentFailure, transientFailure]
    | err code =>
      by_cases hc : (code == 410 || code == 404) = true
      · simp [deliveredOutcome, permanentFailure, transientFailure, hc]
      · simp [deliveredOutcome, permanentFailure, transientFailure, hc]

/-- Sample preferences row for concrete witnesses: tides enabled at daily
frequency, every other category disabled, preferred time 09:00, default
quiet hours. -/
def tideDigestPrefs : Prefs :=
  { userId := 7
    tidesEnabled := some true
    sportsEnabled := some false
    astronomyEnabled := some false
    agricultureEnabled := some false
    culturalEnabled := some false
    holidaysEnabled := some false
    tidesFrequency := some "daily"
    sportsFrequency := some "daily"
    astronomyFrequency := some "daily"
    agricultureFrequency := some "weekly"
    culturalFrequency := some "weekly"
    holidaysFrequency := some "daily"
    preferredNotificationTime := some "09:00"
    quietHoursStart := some "22:00"
    quietHoursEnd := some "08:00" }

/-- Sample tide event starting at minute 600 (10:00). -/
def sampleTide : Event := ⟨1, "Maré Alta", "tide", 600, "Lisboa"⟩

/-- Sample tick environment: one user, one subscription, one tide event,
always-succeeding delivery, current time 09:00. -/
def sampleDigestEnv : TickEnv :=
  ⟨[tideDigestPrefs], fun _ => .ok [1], storeQuery [sampleTide], fun _ _ => .ok (), 540⟩

/-- C9: for a context within its send window whose digest event fetch
returns `evs`, the digest loop sends nothing (and records no error) when
`evs` is empty, and otherwise composes exactly one notification whose
title announces the count, whose body is the comma-joined titles of the
first 3 events, and whose tag is the constant `daily-digest`. -/
theorem digest_compose (env : TickEnv) (c : Context) (evs : List Event)
    (hw : digestWindowPasses c.prefs env.now = true)
    (hq : getRelevantEventsE env.query env.now c.prefs = .ok evs) :
    (evs = [] → digestLoop env [c] = []) ∧
    (evs ≠ [] → digestLoop env [c] =
      [⟨c.prefs.userId,
        ⟨"AlmanaqueLuso - " ++ toString evs.length ++ " eventos hoje",
         String.intercalate ", " ((evs.take 3).map Event.title), "/dashboard", "daily-digest"⟩,
        match env.deliver c.prefs.userId (digestPayload evs) with
        | .ok _ => true
        | .error _ => false⟩]) := by
  constructor
  · intro h
    subst h
    simp [digestLoop, hw, hq]
  · intro h
    have hlen : 0 < evs.length := List.length_pos.2 h
    simp only [digestLoop, hw, if_true, hq]
    simp [hlen, digestPayload]

/-- Witness for C9: the sample environment composes one digest for the
single tide event. -/
theorem digest_compose_witness :
    digestLoop sampleDigestEnv [⟨tideDigestPrefs, [1]⟩] =
      [⟨7, ⟨"AlmanaqueLuso - 1 eventos hoje", "Maré Alta", "/dashboard", "daily-digest"⟩,
        true⟩] :=
  (digest_compose sampleDigestEnv ⟨tideDigestPrefs, [1]⟩ [sampleTide] rfl rfl).2
    (by decide)

/-- C10: a subscribe request whose endpoint already exists only refreshes
that row's keys and userAgent — its id, owning userId, createdAt and
endpoint are unchanged, rows with other endpoints are untouched, and no
row is created; a new endpoint appends one row owned by the requesting
user. -/
theorem subscribe_frame (store : List SubRow) (req : SubReq) (fid fts : Nat) :
    ((store.any fun r => r.endpoint == req.endpoint) = true →
      subscribeRoute store req fid fts = store.map (refreshRow req) ∧
      (subscribeRoute store req fid fts).length = store.length ∧
      (∀ i : Nat, (subscribeRoute store req fid fts)[i]? = (store[i]?).map (refreshRow req)) ∧
      (∀ r : SubRow, (refreshRow req r).id = r.id ∧ (refreshRow req r).userId = r.userId ∧
        (refreshRow req r).createdAt = r.createdAt ∧
        (refreshRow req r).endpoint = r.endpoint ∧
        (r.endpoint = req.endpoint →
          (refreshRow req r).keysP256dh = req.keysP256dh ∧
          (refreshRow req r).keysAuth = req.keysAuth ∧
          (refreshRow req r).userAgent = req.userAgent) ∧
        (r.endpoint ≠ req.endpoint → refreshRow req r = r))) ∧
    ((store.any fun r => r.endpoint == req.endpoint) = false →
      subscribeRoute store req fid fts =
        store ++ [⟨fid, req.userId, req.endpoint, req.keysP256dh, req.keysAuth,
          req.userAgent, fts⟩]) := by
  constructor
  · intro h
    have hfil : (store.filter fun r => r.endpoint == req.endpoint) ≠ [] := by
      simp only [List.any_eq_true] at h
      obtain ⟨r, hr, he⟩ := h
      have hmem : r ∈ store.filter fun r => r.endpoint == req.endpoint :=
        List.mem_filter.2 ⟨hr, he⟩
      intro hnil
      rw [hnil] at hmem
      exact absurd hmem (List.not_mem_nil r)
    have hcond : 0 < ((store.filter fun r => r.endpoint == req.endpoint).take 1).length := by
      cases hf : store.filter fun r => r.endpoint == req.endpoint with
      | nil => exact absurd hf hfil
      | cons a l => simp [hf]
    have hroute : subscribeRoute store req fid fts = store.map (refreshRow req) := by
      simp only [subscribeRoute]
      rw [if_pos hcond]
    refine ⟨hroute, ?_, ?_, ?_⟩
    · rw [hroute, List.length_map]
    · intro i
      rw [hroute]
      simp
    · intro r
      by_cases hre : (r.endpoint == req.endpoint) = true
      · have hre' : r.endpoint = req.endpoint := by simpa using hre
        simp [refreshRow, hre, hre']
      · have hre' : r.endpoint ≠ req.endpoint := by simpa using hre
        simp [refreshRow, hre, hre']
  · intro h
    have hfil : (store.filter fun r => r.endpoint == req.endpoint) = [] := by
      rw [List.filter_eq_nil_iff]
      intro a ha hbe
      have htrue : (store.any fun r => r.endpoint == req.endpoint) = true :=
        List.any_eq_true.2 ⟨a, ha, hbe⟩
      rw [h] at htrue
      exact Bool.false_ne_true htrue
    simp [subscribeRoute, hfil]

/-- Sample subscription table and re-subscribe request from a different
authenticated user for the same endpoint. -/
def sampleStoreRow : SubRow := ⟨1, 42, "ep1", "k1", "a1", some "ua1", 100⟩

/-- The re-subscribe request: authenticated as user 43, same endpoint. -/
def sampleResubReq : SubReq := ⟨43, "ep1", "k2", "a2", some "ua2"⟩

/-- Witness for C10: re-subscribing to an existing endpoint maps the table
through the in-place refresh (no insertion), at concrete inputs. -/
theorem subscribe_frame_witness :
    subscribeRoute [sampleStoreRow] sampleResubReq 5 200 =
      [sampleStoreRow].map (refreshRow sampleResubReq) :=
  ((subscribe_frame [sampleStoreRow] sampleResubReq 5 200).1 rfl).1

/-- Membership in one conditional block of `eventTypesFor`. -/
theorem mem_ite_nil {c : Prop} [Decidable c] {l : List String} {t : String} :
    t ∈ (if c then l else []) ↔ (c ∧ t ∈ l) := by
  by_cases h : c <;> simp [h]

/-- Preferences with every category disabled. -/
def noneEnabledPrefs : Prefs :=
  { userId := 8
    tidesEnabled := some false
    sportsEnabled := some false
    astronomyEnabled := some false
    agricultureEnabled := some false
    culturalEnabled := some false
    holidaysEnabled := some false
    tidesFrequency := some "never"
    sportsFrequency := some "never"
    astronomyFrequency := some "never"
    agricultureFrequency := some "never"
    culturalFrequency := some "never"
    holidaysFrequency := some "never"
    preferredNotificationTime := some "09:00"
    quietHoursStart := some "22:00"
    quietHoursEnd := some "08:00" }

/-- C5 amended: the digest-mode fetch returns `.ok []` without touching
the event store when no category is enabled (even a failing query is
unused); over a concrete store it returns the first 10 events whose type
is in the resolved type list and whose start time lies in the CLOSED
interval `[now, now + 24h]`; and the resolved type list is exactly the
union of the per-category code sets of the enabled, not-never categories. -/
theorem relevant_events_characterisation (p : Prefs) (store : List Event) (now : Nat) :
    (∀ query : List String → Nat → Nat → Nat → Except Unit (List Event),
      eventTypesFor p = [] → getRelevantEventsE query now p = .ok []) ∧
    (getRelevantEventsE (storeQuery store) now p =
      .ok ((store.filter fun e => (eventTypesFor p).contains e.type &&
        decide (now ≤ e.startAt) && decide (e.startAt ≤ now + 1440)).take 10)) ∧
    (∀ t : String, t ∈ eventTypesFor p ↔
      ((truthy p.tidesEnabled = true ∧ p.tidesFrequency ≠ some "never") ∧ t = "tide") ∨
      ((truthy p.sportsEnabled = true ∧ p.sportsFrequency ≠ some "never") ∧
        (t = "match_liga" ∨ t = "uefa" ∨ t = "fifa")) ∨
      ((truthy p.astronomyEnabled = true ∧ p.astronomyFrequency ≠ some "never") ∧
        (t = "astronomy" ∨ t = "moon")) ∨
      ((truthy p.agricultureEnabled = true ∧ p.agricultureFrequency ≠ some "never") ∧
        t = "agriculture") ∨
      ((truthy p.culturalEnabled = true ∧ p.culturalFrequency ≠ some "never") ∧
        (t = "event_pt" ∨ t = "cultural")) ∨
      ((truthy p.holidaysEnabled = true ∧ p.holidaysFrequency ≠ some "never") ∧
        t = "holiday")) := by
  refine ⟨?_, ?_, ?_⟩
  · intro query h
    simp [getRelevantEventsE, h]
  · by_cases h : (eventTypesFor p).isEmpty
    · have h' : eventTypesFor p = [] := by simpa [List.isEmpty_iff] using h
      simp [getRelevantEventsE, h, h']
    · simp [getRelevantEventsE, h, storeQuery, dbQuery]
  · intro t
    simp only [eventTypesFor, List.mem_append, Bool.and_eq_true, bne_iff_ne, mem_ite_nil,
      List.mem_singleton, List.mem_cons, List.not_mem_nil, or_false, or_assoc]

/-- Witness for C5: with no category enabled the fetch returns `.ok []`
even against a query that would fail. -/
theorem relevant_events_characterisation_witness :
    getRelevantEventsE (fun _ _ _ _ => .error ()) 0 noneEnabledPrefs = .ok [] :=
  (relevant_events_characterisation noneEnabledPrefs [] 0).1
    (fun _ _ _ _ => .error ()) rfl

/-- C5 counterexample: an event starting exactly at `now + 24h` (minute
1440 with `now = 0`) IS returned by the digest-mode fetch, so the fetch
window is not the half-open interval `[now, now + 24h)`. -/
theorem relevant_events_boundary_cx :
    getRelevantEventsE (storeQuery [⟨2, "Maré Baixa", "tide", 1440, "Porto"⟩]) 0
      tideDigestPrefs = .ok [⟨2, "Maré Baixa", "tide", 1440, "Porto"⟩] := rfl

/-- `dbQuery` for the single type `"tide"` as a spec-style filter. -/
theorem dbQuery_tide (store : List Event) (lo hi lim : Nat) :
    dbQuery store ["tide"] lo hi lim =
      (store.filter fun e => e.type == "tide" && decide (lo ≤ e.startAt) &&
        decide (e.startAt ≤ hi)).take lim := by
  unfold dbQuery
  congr 1
  apply List.filter_congr
  intro e _
  cases h : e.type == "tide" <;> simp [List.contains, List.elem, h]

/-- C6 amended: for an eligible single-user context (not in quiet hours,
with a subscription), the immediate-alert path sends one notification
per tide event whose start time lies in the CLOSED interval
`[now, now + 1h]` (at most 5), each tagged `tide-{eventId}`; it is not
gated by `preferredNotificationTime`; and a context without tides enabled
at `'immediate'` frequency receives no immediate alert. -/
theorem immediate_alerts (p : Prefs) (subs : List Nat) (store : List Event)
    (deliver : Nat → Payload → Except Unit Unit) (now : Nat) (s : Option String)
    (hq : isQuietHours (jsOrStr p.quietHoursStart "22:00") (jsOrStr p.quietHoursEnd "08:00")
      now = false)
    (hs : subs ≠ []) :
    (truthy p.tidesEnabled = true → p.tidesFrequency = some "immediate" →
      sendImmediateNotifications ⟨[p], fun _ => .ok subs, storeQuery store, deliver, now⟩ =
        ((store.filter fun e => e.type == "tide" && decide (now ≤ e.startAt) &&
            decide (e.startAt ≤ now + 60)).take 5).map fun t =>
          ⟨p.userId, tidePayload t,
            match deliver p.userId (tidePayload t) with
            | .ok _ => true
            | .error _ => false⟩) ∧
    (truthy p.tidesEnabled = false ∨ p.tidesFrequency ≠ some "immediate" →
      sendImmediateNotifications ⟨[p], fun _ => .ok subs, storeQuery store, deliver, now⟩
        = []) ∧
    (sendImmediateNotifications
        ⟨[{ p with preferredNotificationTime := s }], fun _ => .ok subs, storeQuery store,
          deliver, now⟩ =
      sendImmediateNotifications ⟨[p], fun _ => .ok subs, storeQuery store, deliver, now⟩) := by
  have hlen : 0 < subs.length := List.length_pos.2 hs
  have hctx : getUsersForNotifications (fun _ => .ok subs) now [p] = .ok [⟨p, subs⟩] := by
    simp [getUsersForNotifications, hq, hlen]
  have hctx2 : getUsersForNotifications (fun _ => .ok subs) now
      [{ p with preferredNotificationTime := s }] =
      .ok [⟨{ p with preferredNotificationTime := s }, subs⟩] := by
    simp [getUsersForNotifications, hq, hlen]
  refine ⟨?_, ?_, ?_⟩
  · intro h1 h2
    simp only [sendImmediateNotifications, hctx]
    simp only [immediateLoop, h1, h2, storeQuery, dbQuery_tide]
    simp only [Bool.not_true, bne_self_eq_false, Bool.or_self, Bool.false_eq_true, if_false]
    cases hL : (store.filter fun e => e.type == "tide" && decide (now ≤ e.startAt) &&
        decide (e.startAt ≤ now + 60)).take 5 with
    | nil => simp
    | cons a l => simp
  · intro h
    simp only [sendImmediateNotifications, hctx]
    rcases h with h | h
    · simp [immediateLoop, h]
    · have hb : (p.tidesFrequency != some "immediate") = true := bne_iff_ne.mpr h
      simp [immediateLoop, hb]
  · simp only [sendImmediateNotifications, hctx, hctx2]
    rfl

/-- Sample preferences with tides at `'immediate'` frequency. -/
def tideImmediatePrefs : Prefs :=
  { tideDigestPrefs with userId := 9, tidesFrequency := some "immediate" }

/-- Witness for C6 at a concrete eligible user and a tide 30 minutes out. -/
theorem immediate_alerts_witness :
    sendImmediateNotifications
      ⟨[tideImmediatePrefs], fun _ => .ok [4], storeQuery [⟨3, "Maré Cheia", "tide", 570, "Faro"⟩],
        fun _ _ => .ok (), 540⟩ =
      ((([⟨3, "Maré Cheia", "tide", 570, "Faro"⟩] : List Event).filter fun e =>
          e.type == "tide" && decide (540 ≤ e.startAt) && decide (e.startAt ≤ 540 + 60)).take
        5).map fun t =>
        ⟨tideImmediatePrefs.userId, tidePayload t,
          match (fun (_ : Nat) (_ : Payload) => (.ok () : Except Unit Unit))
              tideImmediatePrefs.userId (tidePayload t) with
          | .ok _ => true
          | .error _ => false⟩ :=
  (immediate_alerts tideImmediatePrefs [4] [⟨3, "Maré Cheia", "tide", 570, "Faro"⟩]
    (fun _ _ => .ok ()) 540 none rfl (by decide)).1 rfl rfl

/-- C6 counterexample: a tide event starting exactly at `now + 1h`
(minute 600 with `now = 540`) DOES trigger an immediate alert, so the
immediate horizon is not the half-open interval `[now, now + 1h)`. -/
theorem immediate_boundary_cx :
    sendImmediateNotifications
      ⟨[tideImmediatePrefs], fun _ => .ok [4], storeQuery [sampleTide],
        fun _ _ => .ok (), 540⟩ =
      [⟨9, ⟨"AlmanaqueLuso - Maré Próxima", "Maré Alta - Lisboa", "/dashboard", "tide-1"⟩,
        true⟩] := rfl

/-- C2 amended: within one digest tick only the per-user DELIVERY
exception is isolated — the attempted (user, payload) pairs do not depend
on the delivery function at all — while an exception in the per-user
event-store fetch aborts processing of all remaining users (it is only
caught by the tick-level handler). -/
theorem digest_failure_isolation (env : TickEnv) (d : Nat → Payload → Except Unit Unit) :
    ((sendDailyDigest { env with deliver := d }).map fun a => (a.userId, a.payload)) =
      ((sendDailyDigest env).map fun a => (a.userId, a.payload)) ∧
    (∀ c : Context, ∀ rest : List Context,
      digestWindowPasses c.prefs env.now = true →
      getRelevantEventsE env.query env.now c.prefs = .error () →
      digestLoop env (c :: rest) = []) := by
  constructor
  · have key : ∀ cs : List Context,
        ((digestLoop { env with deliver := d } cs).map fun a => (a.userId, a.payload)) =
          ((digestLoop env cs).map fun a => (a.userId, a.payload)) := by
      intro cs
      induction cs with
      | nil => rfl
      | cons c rest ih =>
        dsimp only [digestLoop]
        by_cases hw : digestWindowPasses c.prefs env.now = true
        · simp only [hw, if_true]
          cases hquery : getRelevantEventsE env.query env.now c.prefs with
          | error e => simp [hquery]
          | ok evs =>
            simp only [hquery]
            by_cases hlen : 0 < evs.length
            · simp [hlen, ih]
            · simp [hlen, ih]
        · simp [hw, ih]
    dsimp only [sendDailyDigest]
    cases hres : getUsersForNotifications env.subsOf env.now env.prefs with
    | error e => simp [hres]
    | ok cs => simp [hres, key]
  · intro c rest hw hq
    dsimp only [digestLoop]
    simp [hw, hq]

/-- Two users identical but for their ids, both eligible at 09:00. -/
def userOnePrefs : Prefs := { tideDigestPrefs with userId := 1 }

/-- The second of the two identical users. -/
def userTwoPrefs : Prefs := { tideDigestPrefs with userId := 2 }

/-- C2 counterexample: user 1's subscription fetch throws; the tick then
delivers to NOBODY — user 2, although eligible (as the second equation
shows), is not processed.  A per-user fetch exception is not isolated. -/
theorem digest_per_user_cx :
    sendDailyDigest
      ⟨[userOnePrefs, userTwoPrefs], fun u => if u = 1 then .error () else .ok [5],
        storeQuery [sampleTide], fun _ _ => .ok (), 540⟩ = [] ∧
    sendDailyDigest
      ⟨[userOnePrefs, userTwoPrefs], fun _ => .ok [5],
        storeQuery [sampleTide], fun _ _ => .ok (), 540⟩ =
      [⟨1, ⟨"AlmanaqueLuso - 1 eventos hoje", "Maré Alta", "/dashboard", "daily-digest"⟩, true⟩,
       ⟨2, ⟨"AlmanaqueLuso - 1 eventos hoje", "Maré Alta", "/dashboard", "daily-digest"⟩,
        true⟩] := ⟨rfl, rfl⟩

/-- Witness for C2 amended at a concrete environment with a failing
per-user event fetch. -/
theorem digest_failure_isolation_witness :
    digestLoop
      ⟨[userOnePrefs], fun _ => .ok [5], fun _ _ _ _ => .error (), fun _ _ => .ok (), 540⟩
      [⟨userOnePrefs, [5]⟩, ⟨userTwoPrefs, [5]⟩] = [] :=
  (digest_failure_isolation
      ⟨[userOnePrefs], fun _ => .ok [5], fun _ _ _ _ => .error (), fun _ _ => .ok (), 540⟩
      (fun _ _ => .ok ())).2 ⟨userOnePrefs, [5]⟩ [⟨userTwoPrefs, [5]⟩] rfl rfl

/-- C7 amended: a user whose stored time strings are unparseable does NOT
fail closed — NaN comparisons make the quiet-hours predicate false and the
send-window check pass for every current time, so the user stays eligible
on every tick (the tick itself does not crash). -/
theorem malformed_times_fail_open (p : Prefs) (now : Nat)
    (h1 : parseTimeJS (jsOrStr p.quietHoursStart "22:00") = none)
    (h2 : parseTimeJS (jsOrStr p.quietHoursEnd "08:00") = none)
    (h3 : parseTimeJS (jsOrStr p.preferredNotificationTime "09:00") = none) :
    isQuietHours (jsOrStr p.quietHoursStart "22:00") (jsOrStr p.quietHoursEnd "08:00") now
      = false ∧
    digestWindowPasses p now = true := by
  constructor
  · simp [isQuietHours, h1, h2, jsGt, jsGe, jsLe]
  · simp [digestWindowPasses, digestWindowPassesM, h3, jsLt, jsGe, jsAdd]

/-- User 3 with unparseable preference time strings. -/
def malformedPrefs : Prefs :=
  { tideDigestPrefs with
    userId := 3
    preferredNotificationTime := some "ab:cd"
    quietHoursStart := some "xx:yy"
    quietHoursEnd := some "zz:ww" }

/-- Witness for C7 amended at the malformed user and time 1000. -/
theorem malformed_times_fail_open_witness :
    isQuietHours "xx:yy" "zz:ww" 1000 = false ∧
    digestWindowPasses malformedPrefs 1000 = true :=
  malformed_times_fail_open malformedPrefs 1000 rfl rfl rfl

/-- C7 counterexample: the user with unparseable time strings is NOT
skipped — the tick composes and delivers a digest to them (at an
arbitrary time of day, here 16:40). -/
theorem malformed_times_cx :
    sendDailyDigest
      ⟨[malformedPrefs], fun _ => .ok [9], storeQuery [⟨4, "Maré Viva", "tide", 1010, "Aveiro"⟩],
        fun _ _ => .ok (), 1000⟩ =
      [⟨3, ⟨"AlmanaqueLuso - 1 eventos hoje", "Maré Viva", "/dashboard", "daily-digest"⟩,
        true⟩] := rfl

end Almanaque
